import Mathlib

/-!
Verification development for the TourApp trip-planning frontend.

The definitions below are a shallow embedding of the state-handling logic of
the React components of this repository:

- the debounced city-search control of `TripPreparation` (src/unnamed/part_006,
  source-city search effect at lines 63-99, input onChange at lines 306-315) and
  of `TestItinerary` (src/unnamed/part_004, lines 55-98 and 116-124); the two
  components contain the same search logic, embedded once here;
- the route-validation / travel-mode pipeline of `TripPreparation`
  (src/unnamed/part_006);
- the `RouteValidation` page (src/frontend/src/pages/RouteValidation.jsx);
- the `TripConfiguration` page (src/frontend/src/pages/TripConfiguration.jsx)
  and its test twin (src/unnamed/part_005);
- the `ItineraryGeneration` page (second component of src/unnamed/part_002);
- the sessionStorage JSON round trip between `TripConfiguration` and
  `ItineraryGeneration`, with an executable model of `JSON.stringify` and
  `JSON.parse` (numbers are modelled as natural numbers: every numeric field
  flowing through this path is a nonnegative integer such as
  `distance_km` and `days`).

React state updates raised inside one event handler are modelled as a single
atomic transition on a state record; an effect re-run triggered by the updated
dependencies is composed into the same transition.  Asynchronous collaborator
calls are split into a dispatch step (which appends the request payload to a
ghost request log) and a response step.
-/

/-- City entity as returned by the location-search collaborator
(`name`, `state`, `lat`, `lon`).  Coordinates are modelled as integers;
no claim computes with them. -/
structure City where
  name : String
  state : String
  lat : Int
  lon : Int
deriving DecidableEq

/-- FeasibilityResult payload of POST /api/route/validate
(`feasible`, `distance_km`, `minimum_days`, `reason`). -/
structure FeasibilityResult where
  feasible : Bool
  distance_km : Nat
  minimum_days : Nat
  reason : Option String
deriving DecidableEq

/-- ModeRecommendation payload of POST /api/travel/modes. -/
structure ModeRecommendation where
  recommended_modes : List String
  estimated_times : List (String × String)
  preferred_mode_valid : Bool
  preferred_mode_reason : Option String
deriving DecidableEq

/-- Request body of POST /api/travel/modes as built by `fetchTravelModes`
in src/unnamed/part_006 lines 227-231. -/
structure ModeRequest where
  distance_km : Nat
  days : Nat
  preferred_mode : Option String
deriving DecidableEq

/-- Request body of POST /api/route/validate as built by `handleValidateRoute`
(src/unnamed/part_006 lines 193-197) and `handleValidate`
(src/frontend/src/pages/RouteValidation.jsx lines 73-77). -/
structure ValidateRequest where
  source_lat : Int
  source_lon : Int
  dest_lat : Int
  dest_lon : Int
  days : Nat
deriving DecidableEq

/-- State of one debounced city-search control: the React useState fields of
the source-city selector of src/unnamed/part_006 (equally the selector of
src/unnamed/part_004).  `timer` is the pending debounce timeout together with
the query it will search; `inflight` is the ghost list of dispatched,
unresolved fetches (their query strings); `suggestionsFor` is a ghost tag
recording which query produced the currently displayed `suggestions`. -/
structure SearchState where
  selectedCity : Option City
  query : String
  suggestions : List City
  suggestionsFor : Option String
  showDropdown : Bool
  timer : Option String
  inflight : List String
deriving DecidableEq

/-- Events driving a debounced search control: a keystroke (`edit`), a
candidate pick, the 400 ms debounce timer elapsing (`timerFire`), and a
dispatched fetch resolving with data (`respond`) or failing (`respondFail`). -/
inductive SearchEvent where
  | edit (q : String)
  | pick (c : City)
  | timerFire
  | respond (q : String) (data : List City)
  | respondFail (q : String)
deriving DecidableEq

/-- Body of the search useEffect (src/unnamed/part_006 lines 63-99): runs after
every change of `query` or `selectedCity`; the cleanup (clearTimeout) has
already cleared `timer` before this body runs. -/
def searchEffect (s : SearchState) : SearchState :=
  if s.query.length < 2 then
    { s with suggestions := [], suggestionsFor := none, showDropdown := false }
  else
    match s.selectedCity with
    | some c =>
      if s.query = c.name then { s with showDropdown := false }
      else { s with timer := some s.query }
    | none => { s with timer := some s.query }

/-- One transition of the debounced search control.  `edit` is the input
onChange handler (src/unnamed/part_006 lines 310-315: set the query, null the
selection when the text differs from the committed name) followed by the
effect re-run (cleanup clears the timer, then `searchEffect`).  `pick` is the
dropdown button onClick (lines 336-340).  `timerFire` dispatches the fetch for
the pending query.  `respond`/`respondFail` are the fetch continuation (lines
82-92): the response data is written unconditionally, with no check that the
query is still current. -/
def stepSearch (s : SearchState) : SearchEvent → SearchState
  | .edit q =>
    searchEffect
      { s with
        query := q
        selectedCity :=
          match s.selectedCity with
          | some c => if q ≠ c.name then none else some c
          | none => none
        timer := none }
  | .pick c =>
    searchEffect
      { s with selectedCity := some c, query := c.name, showDropdown := false,
               timer := none }
  | .timerFire =>
    match s.timer with
    | some q => { s with timer := none, inflight := s.inflight ++ [q] }
    | none => s
  | .respond q data =>
    if q ∈ s.inflight then
      { s with inflight := s.inflight.erase q, suggestions := data,
               suggestionsFor := some q, showDropdown := !data.isEmpty }
    else s
  | .respondFail q =>
    if q ∈ s.inflight then
      { s with inflight := s.inflight.erase q, suggestions := [],
               suggestionsFor := some q, showDropdown := false }
    else s

/-- Initial state of a search control (useState initialisers of
src/unnamed/part_006 lines 18-27). -/
def initSearch : SearchState :=
  { selectedCity := none, query := "", suggestions := [], suggestionsFor := none,
    showDropdown := false, timer := none, inflight := [] }

/-- Run a sequence of search events from the initial state. -/
def runSearch (evs : List SearchEvent) : SearchState :=
  evs.foldl stepSearch initSearch

/-- Recogniser for keystroke events. -/
def isEditEvt : SearchEvent → Bool
  | .edit _ => true
  | _ => false

/-- Recogniser for events that do not change the query text: timer firings and
fetch resolutions. -/
def isQuietEvt : SearchEvent → Bool
  | .timerFire => true
  | .respond _ _ => true
  | .respondFail _ => true
  | _ => false

/-- State of the `TripPreparation` pipeline component (src/unnamed/part_006):
city selections, day count, route-validation state, travel-mode state, and
ghost logs of dispatched collaborator requests. -/
structure TripPrepState where
  sourceCity : Option City
  destCity : Option City
  days : Nat
  validationResult : Option FeasibilityResult
  isValidating : Bool
  validationError : Option String
  preferredMode : Option String
  modeData : Option ModeRecommendation
  isLoadingModes : Bool
  modeError : Option String
  validateRequests : List ValidateRequest
  modeRequests : List ModeRequest
deriving DecidableEq

/-- `fetchTravelModes` up to its await point (src/unnamed/part_006 lines
217-232): bail out when there is no validation result, otherwise set the
loading flag, clear the mode error, and dispatch the request built from the
validation distance, the current day count and the current preferred mode. -/
def fetchTravelModesStart (st : TripPrepState) : TripPrepState :=
  match st.validationResult with
  | none => st
  | some r =>
    { st with isLoadingModes := true, modeError := none,
              modeRequests := st.modeRequests ++
                [{ distance_km := r.distance_km, days := st.days,
                   preferred_mode := st.preferredMode }] }

/-- The auto-refetch useEffect (src/unnamed/part_006 lines 250-254), run after
every change of `validationResult`, `days` or `preferredMode`: re-fetch travel
modes when the validation result exists and is feasible. -/
def modesEffect (st : TripPrepState) : TripPrepState :=
  match st.validationResult with
  | some r => if r.feasible then fetchTravelModesStart st else st
  | none => st

/-- The day slider onChange (src/unnamed/part_006 line 424) followed by the
auto-refetch effect: only `days` is set; nothing is cleared. -/
def dayChange (n : Nat) (st : TripPrepState) : TripPrepState :=
  modesEffect { st with days := n }

/-- The travel-mode button onClick (src/unnamed/part_006 line 544) followed by
the auto-refetch effect: toggle the preferred mode. -/
def preferredModeClick (mode : String) (st : TripPrepState) : TripPrepState :=
  modesEffect
    { st with preferredMode := if st.preferredMode = some mode then none else some mode }

/-- `handleValidateRoute` up to its await point (src/unnamed/part_006 lines
172-197): guard on missing or identical cities, otherwise clear the previous
result, reset step 3 (`modeData` and `preferredMode`), and dispatch the
validation request. -/
def handleValidateRouteStart (st : TripPrepState) : TripPrepState :=
  match st.sourceCity, st.destCity with
  | none, _ =>
    { st with validationError := some "Please select both source and destination cities" }
  | some _, none =>
    { st with validationError := some "Please select both source and destination cities" }
  | some s, some d =>
    if s.name = d.name then
      { st with validationError := some "Source and destination must be different" }
    else
      { st with isValidating := true, validationError := none,
                validationResult := none, modeData := none, preferredMode := none,
                validateRequests := st.validateRequests ++
                  [{ source_lat := s.lat, source_lon := s.lon,
                     dest_lat := d.lat, dest_lon := d.lon, days := st.days }] }

/-- Successful continuation of `handleValidateRoute` (src/unnamed/part_006
lines 205-210) followed by the auto-refetch effect. -/
def validateRouteSuccess (r : FeasibilityResult) (st : TripPrepState) : TripPrepState :=
  modesEffect { st with validationResult := some r, isValidating := false }

/-- Successful continuation of `fetchTravelModes` (src/unnamed/part_006 lines
239-246). -/
def modesSuccess (m : ModeRecommendation) (st : TripPrepState) : TripPrepState :=
  { st with modeData := some m, isLoadingModes := false }

/-- Render guard of the Step 4 proceed-to-configuration section
(src/unnamed/part_006 line 586): `validationResult && validationResult.feasible
&& modeData`.  The preferred mode is not consulted. -/
def step4Visible (st : TripPrepState) : Bool :=
  (match st.validationResult with
   | some r => r.feasible
   | none => false) && st.modeData.isSome

/-- Render guard of the non-recommended-mode warning (src/unnamed/part_006
line 567): `preferredMode && !modeData.preferred_mode_valid`. -/
def modeWarningShown (st : TripPrepState) : Bool :=
  st.preferredMode.isSome &&
    (match st.modeData with
     | some m => !m.preferred_mode_valid
     | none => false)

/-- Text of the non-recommended-mode warning (src/unnamed/part_006 line 569):
the collaborator-provided `preferred_mode_reason`. -/
def modeWarningText (st : TripPrepState) : Option String :=
  if modeWarningShown st then
    match st.modeData with
    | some m => m.preferred_mode_reason
    | none => none
  else none

/-- State of the `RouteValidation` page
(src/frontend/src/pages/RouteValidation.jsx useState fields), with a ghost log
of dispatched validation requests. -/
structure RVState where
  source : Option City
  destination : Option City
  days : Nat
  validationResult : Option FeasibilityResult
  isValidating : Bool
  error : Option String
  validateRequests : List ValidateRequest
deriving DecidableEq

/-- `handleValidate` up to its await point
(src/frontend/src/pages/RouteValidation.jsx lines 51-78): input-validation
guards return early without any request; otherwise the previous result is
cleared and the request is dispatched. -/
def handleValidate (st : RVState) : RVState :=
  match st.source, st.destination with
  | none, _ => { st with error := some "Please select both source and destination cities" }
  | some _, none => { st with error := some "Please select both source and destination cities" }
  | some s, some d =>
    if s.name = d.name then
      { st with error := some "Source and destination must be different" }
    else
      { st with isValidating := true, error := none, validationResult := none,
                validateRequests := st.validateRequests ++
                  [{ source_lat := s.lat, source_lon := s.lon,
                     dest_lat := d.lat, dest_lon := d.lon, days := st.days }] }

/-- Successful continuation of `handleValidate`
(src/frontend/src/pages/RouteValidation.jsx lines 85-86 and 92-94). -/
def handleValidateSuccess (r : FeasibilityResult) (st : RVState) : RVState :=
  { st with validationResult := some r, isValidating := false }

/-- The onClick of the Use-minimum-days button
(src/frontend/src/pages/RouteValidation.jsx line 347):
`setDays(validationResult.minimum_days)` and nothing else.  The button is
rendered only when a validation result is present and infeasible. -/
def useMinimumDaysClick (st : RVState) : RVState :=
  match st.validationResult with
  | some r => { st with days := r.minimum_days }
  | none => st

/-- The day slider onChange of the `RouteValidation` page (lines 188-191):
sets the day count and clears the stale result. -/
def rvSetDays (n : Nat) (st : RVState) : RVState :=
  { st with days := n, validationResult := none }

/-- Trip data persisted by `TripPreparation` and read back by
`TripConfiguration` (src/unnamed/part_006 lines 261-267). -/
structure TripData where
  source : City
  destination : City
  distance_km : Nat
  travel_mode : Option String
  days : Nat
deriving DecidableEq

/-- Request body of POST /api/trip/configure as built by `handleConfigureTrip`
(src/frontend/src/pages/TripConfiguration.jsx lines 114-125). -/
structure ConfigureRequest where
  source : City
  destination : City
  distance_km : Nat
  travel_mode : Option String
  days : Nat
  pace : String
  budget : String
  selected_interests : List String
  optional_constraints : List (String × Bool)
  ai_model : String
deriving DecidableEq

/-- Request body of POST /api/interests/suggest as built by
`handleSuggestInterests` (src/frontend/src/pages/TripConfiguration.jsx lines
68-73). -/
structure SuggestRequest where
  source : String
  destination : String
  travel_mode : Option String
  days : Nat
deriving DecidableEq

/-- State of the `TripConfiguration` page
(src/frontend/src/pages/TripConfiguration.jsx useState fields), with ghost logs
of dispatched requests.  `result` is kept abstract as an optional marker of the
finalize response (its JSON payload is modelled separately for the round-trip
claim). -/
structure TCState where
  tripData : Option TripData
  detailsConfirmed : Bool
  pace : String
  budget : String
  suggestedInterests : List String
  selectedInterests : List String
  constraints : List (String × Bool)
  aiModel : String
  loadingInterests : Bool
  loadingConfig : Bool
  error : Option String
  result : Option (List (String × String))
  suggestRequests : List SuggestRequest
  configureRequests : List ConfigureRequest
deriving DecidableEq

/-- `handleSuggestInterests` up to its await point
(src/frontend/src/pages/TripConfiguration.jsx lines 56-75): bail out when there
is no trip data, otherwise set the loading flag, clear the error, and dispatch
the suggestion request. -/
def suggestStart (st : TCState) : TCState :=
  match st.tripData with
  | none => st
  | some td =>
    { st with loadingInterests := true, error := none,
              suggestRequests := st.suggestRequests ++
                [{ source := td.source.name, destination := td.destination.name,
                   travel_mode := td.travel_mode, days := td.days }] }

/-- Successful continuation of `handleSuggestInterests`
(src/frontend/src/pages/TripConfiguration.jsx lines 82-91; identically
src/unnamed/part_005 lines 68-72): store the suggestions and auto-select the
first five. -/
def suggestSuccess (interests : List String) (st : TCState) : TCState :=
  { st with suggestedInterests := interests,
            selectedInterests := interests.take 5,
            loadingInterests := false }

/-- `handleConfigureTrip` up to its await point
(src/frontend/src/pages/TripConfiguration.jsx lines 97-126; identically
src/unnamed/part_005 lines 84-111): bail out when there is no trip data; with
zero selected interests set the inline error and return without dispatching;
otherwise clear error and previous result and dispatch the finalize request. -/
def handleConfigureTrip (st : TCState) : TCState :=
  match st.tripData with
  | none => st
  | some td =>
    if st.selectedInterests.length = 0 then
      { st with error := some "Please select at least one interest" }
    else
      { st with loadingConfig := true, error := none, result := none,
                configureRequests := st.configureRequests ++
                  [{ source := td.source, destination := td.destination,
                     distance_km := td.distance_km, travel_mode := td.travel_mode,
                     days := td.days, pace := st.pace, budget := st.budget,
                     selected_interests := st.selectedInterests,
                     optional_constraints := st.constraints,
                     ai_model := st.aiModel }] }

/-- `toggleInterest` (src/frontend/src/pages/TripConfiguration.jsx lines
145-151; identically src/unnamed/part_005 lines 131-137 and
src/unnamed/part_004 lines 149-155): remove the interest when present,
append it when absent. -/
def toggleInterest (interest : String) (prev : List String) : List String :=
  if prev.contains interest then prev.filter (fun i => i != interest)
  else prev ++ [interest]

/-- Disabled condition of the Finalize Configuration button
(src/frontend/src/pages/TripConfiguration.jsx lines 546-550):
`!detailsConfirmed || loadingConfig || selectedInterests.length === 0`. -/
def finalizeDisabled (st : TCState) : Bool :=
  !st.detailsConfirmed || st.loadingConfig || st.selectedInterests.length == 0

/-- JSON values as handled by `JSON.stringify` and `JSON.parse` on this code
path.  Object fields keep their text order (JavaScript preserves insertion
order of string keys).  Numbers are modelled as natural numbers: all numeric
fields flowing through the sessionStorage round trip (`distance_km`, `days`,
`places_per_day`, ...) are nonnegative integers. -/
inductive Json where
  | null : Json
  | bool (b : Bool) : Json
  | num (n : Nat) : Json
  | str (s : String) : Json
  | arr (elems : List Json) : Json
  | obj (fields : List (String × Json)) : Json

/-- Characters of the JSON literal null. -/
def jsNullChars : List Char := ['n', 'u', 'l', 'l']

/-- Characters of the JSON literal true. -/
def jsTrueChars : List Char := ['t', 'r', 'u', 'e']

/-- Characters of the JSON literal false. -/
def jsFalseChars : List Char := ['f', 'a', 'l', 's', 'e']

/-- Opening brace character. -/
def lbrace : Char := '\x7b'

/-- Closing brace character. -/
def rbrace : Char := '\x7d'

/-- Decimal digit character for a value below ten. -/
def digChar (n : Nat) : Char :=
  match n with
  | 0 => '0'
  | 1 => '1'
  | 2 => '2'
  | 3 => '3'
  | 4 => '4'
  | 5 => '5'
  | 6 => '6'
  | 7 => '7'
  | 8 => '8'
  | _ => '9'

/-- Numeric value of a decimal digit character. -/
def digVal (c : Char) : Nat := c.toNat - 48

/-- Decimal representation of a natural number, most significant digit
first. -/
def natChars (n : Nat) : List Char :=
  if n = 0 then ['0'] else ((Nat.digits 10 n).map digChar).reverse

/-- Read a decimal digit string back into a natural number. -/
def charsToNat (ds : List Char) : Nat :=
  ds.foldl (fun a c => 10 * a + digVal c) 0

/-- JSON string escaping of one character (the escapes relevant to the
serializer model: quote, backslash and the common control characters). -/
def escapeChar (c : Char) : List Char :=
  if c = '"' then ['\\', '"']
  else if c = '\\' then ['\\', '\\']
  else if c = '\n' then ['\\', 'n']
  else if c = '\t' then ['\\', 't']
  else if c = '\r' then ['\\', 'r']
  else [c]

/-- JSON string escaping of a character list. -/
def escapeString (s : List Char) : List Char :=
  s.foldr (fun c acc => escapeChar c ++ acc) []

mutual

/-- Character-level `JSON.stringify` of a value (compact form, no
whitespace). -/
def strVal : Json → List Char
  | .null => jsNullChars
  | .bool true => jsTrueChars
  | .bool false => jsFalseChars
  | .num n => natChars n
  | .str s => '"' :: (escapeString s.data ++ ['"'])
  | .arr [] => ['[', ']']
  | .arr (x :: t) => '[' :: (strVal x ++ strArrTail t)
  | .obj [] => [lbrace, rbrace]
  | .obj (kv :: t) => lbrace :: (strField kv ++ strObjTail t)

/-- Serialization of one object field: quoted key, colon, value. -/
def strField : String × Json → List Char
  | (k, v) => '"' :: (escapeString k.data ++ ('"' :: ':' :: strVal v))

/-- Serialization of the remaining array elements after the first, ending
with the closing bracket. -/
def strArrTail : List Json → List Char
  | [] => [']']
  | y :: t => ',' :: (strVal y ++ strArrTail t)

/-- Serialization of the remaining object fields after the first, ending with
the closing brace. -/
def strObjTail : List (String × Json) → List Char
  | [] => [rbrace]
  | kv :: t => ',' :: (strField kv ++ strObjTail t)

end

/-- `JSON.stringify` on strings. -/
def jsonStringify (j : Json) : String := String.mk (strVal j)

/-- Inverse of `escapeChar` on the character following a backslash. -/
def unescapeChar (e : Char) : Option Char :=
  if e = '"' then some '"'
  else if e = '\\' then some '\\'
  else if e = 'n' then some '\n'
  else if e = 't' then some '\t'
  else if e = 'r' then some '\r'
  else none

/-- Parse the body of a JSON string (after the opening quote) up to and
including the closing quote, unescaping as it goes. -/
def parseStrBody : List Char → Option (List Char × List Char)
  | [] => none
  | c :: rest =>
    if c = '"' then some ([], rest)
    else if c = '\\' then
      match rest with
      | [] => none
      | e :: rest2 =>
        match unescapeChar e, parseStrBody rest2 with
        | some u, some (s, r) => some (u :: s, r)
        | _, _ => none
    else
      match parseStrBody rest with
      | some (s, r) => some (c :: s, r)
      | none => none

/-- Consume an expected literal character sequence. -/
def dropExpect : List Char → List Char → Option (List Char)
  | [], cs => some cs
  | p :: ps, c :: cs => if c = p then dropExpect ps cs else none
  | _ :: _, [] => none

/-- Split off the longest leading run of decimal digit characters. -/
def takeDigits : List Char → List Char × List Char
  | [] => ([], [])
  | c :: cs =>
    if c.isDigit then
      let p := takeDigits cs
      (c :: p.1, p.2)
    else ([], c :: cs)

mutual

/-- Fuel-indexed `JSON.parse` for compact serializations: parse one value. -/
def parseVal : Nat → List Char → Option (Json × List Char)
  | 0, _ => none
  | _ + 1, [] => none
  | fuel + 1, c :: rest =>
    if c = 'n' then
      match dropExpect ['u', 'l', 'l'] rest with
      | some r => some (.null, r)
      | none => none
    else if c = 't' then
      match dropExpect ['r', 'u', 'e'] rest with
      | some r => some (.bool true, r)
      | none => none
    else if c = 'f' then
      match dropExpect ['a', 'l', 's', 'e'] rest with
      | some r => some (.bool false, r)
      | none => none
    else if c = '"' then
      match parseStrBody rest with
      | some (s, r) => some (.str (String.mk s), r)
      | none => none
    else if c = '[' then
      match rest with
      | [] => none
      | r1 :: rest2 =>
        if r1 = ']' then some (.arr [], rest2)
        else
          match parseVal fuel rest with
          | some (v, r2) =>
            match parseArrTail fuel r2 with
            | some (vs, r3) => some (.arr (v :: vs), r3)
            | none => none
          | none => none
    else if c = lbrace then
      match rest with
      | [] => none
      | r1 :: rest2 =>
        if r1 = rbrace then some (.obj [], rest2)
        else
          match parseField fuel rest with
          | some (kv, r2) =>
            match parseObjTail fuel r2 with
            | some (kvs, r3) => some (.obj (kv :: kvs), r3)
            | none => none
          | none => none
    else if c.isDigit then
      let p := takeDigits rest
      some (.num (charsToNat (c :: p.1)), p.2)
    else none

/-- Parse one `"key":value` object field. -/
def parseField : Nat → List Char → Option ((String × Json) × List Char)
  | 0, _ => none
  | _ + 1, [] => none
  | fuel + 1, c :: rest =>
    if c = '"' then
      match parseStrBody rest with
      | some (k, r1) =>
        match r1 with
        | [] => none
        | c2 :: r2 =>
          if c2 = ':' then
            match parseVal fuel r2 with
            | some (v, r3) => some ((String.mk k, v), r3)
            | none => none
          else none
      | none => none
    else none

/-- Parse the array elements following the first one, up to the closing
bracket. -/
def parseArrTail : Nat → List Char → Option (List Json × List Char)
  | 0, _ => none
  | _ + 1, [] => none
  | fuel + 1, c :: rest =>
    if c = ']' then some ([], rest)
    else if c = ',' then
      match parseVal fuel rest with
      | some (v, r1) =>
        match parseArrTail fuel r1 with
        | some (vs, r2) => some (v :: vs, r2)
        | none => none
      | none => none
    else none

/-- Parse the object fields following the first one, up to the closing
brace. -/
def parseObjTail : Nat → List Char → Option (List (String × Json) × List Char)
  | 0, _ => none
  | _ + 1, [] => none
  | fuel + 1, c :: rest =>
    if c = rbrace then some ([], rest)
    else if c = ',' then
      match parseField fuel rest with
      | some (kv, r1) =>
        match parseObjTail fuel r1 with
        | some (kvs, r2) => some (kv :: kvs, r2)
        | none => none
      | none => none
    else none

end

mutual

/-- Fuel needed by `parseVal` to parse the serialization of a value. -/
def sizeVal : Json → Nat
  | .null => 1
  | .bool _ => 1
  | .num _ => 1
  | .str _ => 1
  | .arr [] => 1
  | .arr (x :: t) => 1 + max (sizeVal x) (sizeArrTail t)
  | .obj [] => 1
  | .obj (kv :: t) => 1 + max (sizeField kv) (sizeObjTail t)

/-- Fuel needed by `parseField` for one object field. -/
def sizeField : String × Json → Nat
  | (_, v) => 1 + sizeVal v

/-- Fuel needed by `parseArrTail` for the remaining array elements. -/
def sizeArrTail : List Json → Nat
  | [] => 1
  | y :: t => 1 + max (sizeVal y) (sizeArrTail t)

/-- Fuel needed by `parseObjTail` for the remaining object fields. -/
def sizeObjTail : List (String × Json) → Nat
  | [] => 1
  | kv :: t => 1 + max (sizeField kv) (sizeObjTail t)

end

/-- A character list that does not begin with a decimal digit (the separator
context in which a serialized number can be re-parsed unambiguously). -/
def noDigitHead : List Char → Prop
  | [] => True
  | c :: _ => c.isDigit = false

/-- `JSON.parse` on strings, restricted to the compact serializations produced
by `jsonStringify` (the only strings parsed on this code path); the fuel is
one more than the input length, which suffices for any serialized value. -/
def jsonParse (s : String) : Option Json :=
  match parseVal (s.data.length + 1) s.data with
  | some (j, []) => some j
  | _ => none

/-- The fixed sessionStorage key used by the Generate Itinerary onClick
(src/frontend/src/pages/TripConfiguration.jsx line 652) and by the
configuration-loading useEffect (src/unnamed/part_002 line 359). -/
def tripConfigurationKey : String := "tripConfiguration"

/-- `sessionStorage.setItem` on a store modelled as a partial map. -/
def sessionSet (store : String → Option String) (key val : String) :
    String → Option String :=
  fun k => if k = key then some val else store k

/-- The Generate Itinerary onClick (src/frontend/src/pages/TripConfiguration.jsx
lines 648-658): persist the finalize result as
`JSON.stringify` under the fixed key before navigating. -/
def persistConfiguration (store : String → Option String) (result : Json) :
    String → Option String :=
  sessionSet store tripConfigurationKey (jsonStringify result)

/-- The configuration-loading useEffect of `ItineraryGeneration`
(src/unnamed/part_002 lines 358-371): read the stored string back and
`JSON.parse` it. -/
def loadConfiguration (store : String → Option String) : Option Json :=
  match store tripConfigurationKey with
  | some s => jsonParse s
  | none => none

/-- The request body of POST /api/itinerary built by
`handleGenerateItinerary` (src/unnamed/part_002 line 387):
`JSON.stringify(configuration)`. -/
def itineraryRequestBody (configuration : Json) : String :=
  jsonStringify configuration

/-- State of the `ItineraryGeneration` page (second component of
src/unnamed/part_002), with a ghost log of dispatched request bodies. -/
structure IGState where
  configuration : Option Json
  loading : Bool
  error : Option String
  itinerary : Option Json
  genRequests : List String

/-- Collaborator response to POST /api/itinerary: success with a payload, or a
non-success response whose JSON body may carry a `detail` message. -/
inductive GenResponse where
  | ok (data : Json)
  | fail (detail : Option String)

/-- JavaScript `detail || generic` truthiness: an absent or empty detail
string falls back to the generic message. -/
def jsOrElse (detail : Option String) (generic : String) : String :=
  match detail with
  | some s => if s = "" then generic else s
  | none => generic

/-- `handleGenerateItinerary` up to its await point (src/unnamed/part_002
lines 376-388): bail out when no configuration is loaded, otherwise set the
loading flag, clear error and previous itinerary, and dispatch the request
with the serialized configuration as body. -/
def handleGenerateItineraryStart (st : IGState) : IGState :=
  match st.configuration with
  | none => st
  | some c =>
    { st with loading := true, error := none, itinerary := none,
              genRequests := st.genRequests ++ [itineraryRequestBody c] }

/-- Continuation of `handleGenerateItinerary` after the response
(src/unnamed/part_002 lines 390-401): on a non-success response the thrown
message is `err.detail || "Failed to generate itinerary"`, caught and stored
as the error; on success the itinerary is stored. -/
def handleGenerateItineraryFinish (resp : GenResponse) (st : IGState) : IGState :=
  match resp with
  | .ok data => { st with itinerary := some data, loading := false }
  | .fail detail =>
    { st with error := some (jsOrElse detail "Failed to generate itinerary"),
              loading := false }

/-- The error block of `ItineraryGeneration` (src/unnamed/part_002 lines
566-584) renders the error text together with a Try Again button re-invoking
`handleGenerateItinerary`; it is shown exactly when an error is stored. -/
def retryControlShown (st : IGState) : Bool := st.error.isSome

/-- The itinerary display (Done state) is rendered exactly when an itinerary
is stored (src/unnamed/part_002 line 589). -/
def reachedDone (st : IGState) : Bool := st.itinerary.isSome

/-- Mumbai sample city (coordinates rounded to integers; no claim computes
with them). -/
def mumbai : City :=
  { name := "Mumbai", state := "Maharashtra", lat := 19, lon := 73 }

/-- Goa sample city. -/
def goa : City := { name := "Goa", state := "Goa", lat := 15, lon := 74 }

/-- Sample infeasible validation result (the Scenario A shape: 461 km,
minimum four days). -/
def infeasibleResult : FeasibilityResult :=
  { feasible := false, distance_km := 461, minimum_days := 4,
    reason := some "Trip too short for this distance" }

/-- Sample feasible validation result. -/
def feasibleResult : FeasibilityResult :=
  { feasible := true, distance_km := 461, minimum_days := 4, reason := none }

/-- Sample mode recommendation accepting the preferred mode. -/
def sampleModes : ModeRecommendation :=
  { recommended_modes := ["train", "bus"],
    estimated_times := [("flight", "1h 35m"), ("train", "8h 30m"),
      ("bus", "10h 15m"), ("car", "9h 0m")],
    preferred_mode_valid := true, preferred_mode_reason := none }

/-- Sample mode recommendation rejecting the preferred mode. -/
def sampleModesInvalid : ModeRecommendation :=
  { recommended_modes := ["train", "bus"],
    estimated_times := [("flight", "1h 35m"), ("train", "8h 30m")],
    preferred_mode_valid := false,
    preferred_mode_reason := some "Flight not recommended for this distance" }

/-- TripPreparation sample state after a feasible validation at four days
with train picked as preferred mode and mode data loaded. -/
def tpAfterScenarioA : TripPrepState :=
  { sourceCity := some mumbai, destCity := some goa, days := 4,
    validationResult := some feasibleResult, isValidating := false,
    validationError := none, preferredMode := some "train",
    modeData := some sampleModes, isLoadingModes := false, modeError := none,
    validateRequests := [], modeRequests := [] }

/-- TripPreparation sample state with loaded mode data but no preferred mode
chosen yet. -/
def tpNoMode : TripPrepState := { tpAfterScenarioA with preferredMode := none }

/-- RouteValidation sample state after an infeasible validation at three
days. -/
def rvInfeasible : RVState :=
  { source := some mumbai, destination := some goa, days := 3,
    validationResult := some infeasibleResult, isValidating := false,
    error := none, validateRequests := [] }

/-- RouteValidation sample state with identical endpoints selected. -/
def rvSameCities : RVState :=
  { source := some mumbai, destination := some mumbai, days := 3,
    validationResult := none, isValidating := false, error := none,
    validateRequests := [] }

/-- Sample trip data as persisted by TripPreparation. -/
def sampleTripData : TripData :=
  { source := mumbai, destination := goa, distance_km := 461,
    travel_mode := some "train", days := 4 }

/-- TripConfiguration sample state with confirmed details and no interests
selected yet. -/
def tcConfirmed : TCState :=
  { tripData := some sampleTripData, detailsConfirmed := true,
    pace := "balanced", budget := "premium", suggestedInterests := [],
    selectedInterests := [],
    constraints := [("avoid_early_mornings", false), ("prefer_less_walking", false),
      ("family_friendly", false), ("vegetarian_friendly", false),
      ("photography_focus", false)],
    aiModel := "gemini-flash-latest", loadingInterests := false,
    loadingConfig := false, error := none, result := none,
    suggestRequests := [], configureRequests := [] }

/-- ItineraryGeneration sample state with a loaded configuration. -/
def igLoaded : IGState :=
  { configuration := some (Json.obj [("trip_summary",
      Json.obj [("source", Json.str "Mumbai"), ("destination", Json.str "Goa")])]),
    loading := false, error := none, itinerary := none, genRequests := [] }

theorem searchEffect_selectedCity (s : SearchState) :
    (searchEffect s).selectedCity = s.selectedCity := by
  unfold searchEffect
  split
  · rfl
  · split
    · split <;> rfl
    · rfl

theorem searchEffect_query (s : SearchState) :
    (searchEffect s).query = s.query := by
  unfold searchEffect
  split
  · rfl
  · split
    · split <;> rfl
    · rfl

theorem searchEffect_inflight (s : SearchState) :
    (searchEffect s).inflight = s.inflight := by
  unfold searchEffect
  split
  · rfl
  · split
    · split <;> rfl
    · rfl

theorem stepSearch_edit_selectedCity (s : SearchState) (q : String) :
    (stepSearch s (.edit q)).selectedCity =
      match s.selectedCity with
      | some c => if q ≠ c.name then none else some c
      | none => none := by
  unfold stepSearch
  rw [searchEffect_selectedCity]

theorem stepSearch_edit_query (s : SearchState) (q : String) :
    (stepSearch s (.edit q)).query = q := by
  unfold stepSearch
  rw [searchEffect_query]

/-- Claim C3: for every committed city Selection, calling the query-change
handler with any text different from the selected entity's exact display name
synchronously nulls the Selection, so a Selection is only ever valid while the
displayed query text equals the entity's name
(src/unnamed/part_004 `handleCityInputChange` lines 116-124;
src/unnamed/part_006 source-city input onChange lines 306-315). -/
theorem c3_edit_nulls_selection (s : SearchState) (q : String) (c : City) :
    (s.selectedCity = some c → q ≠ c.name →
      (stepSearch s (.edit q)).selectedCity = none)
    ∧ ((stepSearch s (.edit q)).selectedCity = some c →
        (stepSearch s (.edit q)).query = q ∧ q = c.name) := by
  constructor
  · intro hsel hne
    rw [stepSearch_edit_selectedCity, hsel]
    simp [hne]
  · intro hsel
    refine ⟨stepSearch_edit_query s q, ?_⟩
    rw [stepSearch_edit_selectedCity] at hsel
    cases hc : s.selectedCity with
    | none => rw [hc] at hsel; exact absurd hsel (by simp)
    | some c0 =>
      rw [hc] at hsel
      by_cases hq : q ≠ c0.name
      · simp [hq] at hsel
      · simp [hq] at hsel
        subst hsel
        simpa using hq

/-- Witness for C3 at a concrete state and keystroke. -/
theorem c3_edit_nulls_selection_witness :
    (stepSearch { initSearch with selectedCity := some mumbai, query := "Mumbai" }
        (.edit "Mumba")).selectedCity = none := by
  exact (c3_edit_nulls_selection
    { initSearch with selectedCity := some mumbai, query := "Mumbai" }
    "Mumba" mumbai).1 (by decide) (by decide)

/-- Counterexample to claim C10 as stated: on the duplicate-free list
`["a", "b"]`, toggling `"a"` twice does not return the list unchanged; the
element moves to the end. -/
theorem c10_counterexample :
    toggleInterest "a" (toggleInterest "a" ["a", "b"]) = ["b", "a"]
    ∧ toggleInterest "a" (toggleInterest "a" ["a", "b"]) ≠ ["a", "b"] := by
  exact ⟨by decide, by decide⟩

/-- Claim C10 as amended: for every duplicate-free list `l` and interest `i`,
toggling twice returns `l` unchanged when `i` is absent from `l` (when `i` is
present, the first toggle removes it and the second appends it at the end, so
`i` moves to the last position); a single application preserves
duplicate-freeness, appends `i` at the end when absent, and removes `i`
(preserving the relative order of the remaining elements, as `List.erase`)
when present (src/frontend/src/pages/TripConfiguration.jsx lines 145-151;
src/unnamed/part_005 lines 131-137). -/
theorem c10_amended (l : List String) (i : String) (hnd : l.Nodup) :
    (i ∉ l → toggleInterest i (toggleInterest i l) = l)
    ∧ (toggleInterest i l).Nodup
    ∧ (i ∉ l → toggleInterest i l = l ++ [i])
    ∧ (i ∈ l → toggleInterest i l = l.erase i) := by
  have hfilter_self : i ∉ l → l.filter (fun x => x != i) = l := by
    intro hni
    apply List.filter_eq_self.mpr
    intro a ha
    simp only [bne_iff_ne, ne_eq]
    intro h
    exact hni (h ▸ ha)
  have happend : i ∉ l → toggleInterest i l = l ++ [i] := by
    intro hni
    unfold toggleInterest
    rw [if_neg (fun h => hni (List.elem_iff.mp h))]
  refine ⟨?_, ?_, happend, ?_⟩
  · intro hni
    rw [happend hni]
    unfold toggleInterest
    rw [if_pos (List.elem_iff.mpr (by simp))]
    rw [List.filter_append, hfilter_self hni]
    simp
  · by_cases hi : i ∈ l
    · unfold toggleInterest
      rw [if_pos (List.elem_iff.mpr hi)]
      exact hnd.filter _
    · rw [happend hi]
      simp [List.nodup_append, hnd, hi]
  · intro hi
    unfold toggleInterest
    rw [if_pos (List.elem_iff.mpr hi)]
    rw [List.Nodup.erase_eq_filter hnd]

/-- Witness for C10's amended theorem at a concrete list. -/
theorem c10_amended_witness :
    (["x"] : List String).Nodup
    ∧ toggleInterest "y" (toggleInterest "y" ["x"]) = ["x"]
    ∧ toggleInterest "y" ["x"] = ["x"] ++ ["y"] := by
  have h := c10_amended ["x"] "y" (by decide)
  exact ⟨by decide, h.1 (by decide), h.2.2.1 (by decide)⟩

/-- Claim C6: submitting route validation with equal-named source and
destination selections, or submitting trip finalization with zero selected
interests, sets an inline user-correctable error and returns with every other
state field unchanged — in particular no collaborator request is dispatched
(the ghost request logs are unchanged) and the previous results are retained
(src/frontend/src/pages/RouteValidation.jsx lines 51-66;
src/frontend/src/pages/TripConfiguration.jsx lines 97-108). -/
theorem c6_input_errors (rv : RVState) (s d : City) (tc : TCState) (td : TripData)
    (hs : rv.source = some s) (hd : rv.destination = some d)
    (hname : s.name = d.name)
    (htd : tc.tripData = some td) (hint : tc.selectedInterests = []) :
    handleValidate rv =
      { rv with error := some "Source and destination must be different" }
    ∧ handleConfigureTrip tc =
      { tc with error := some "Please select at least one interest" } := by
  constructor
  · unfold handleValidate
    rw [hs, hd]
    simp [hname]
  · unfold handleConfigureTrip
    rw [htd]
    simp [hint]

/-- Witness for C6 at concrete states. -/
theorem c6_input_errors_witness :
    handleValidate rvSameCities =
      { rvSameCities with error := some "Source and destination must be different" }
    ∧ handleConfigureTrip tcConfirmed =
      { tcConfirmed with error := some "Please select at least one interest" } := by
  exact c6_input_errors rvSameCities mumbai mumbai tcConfirmed sampleTripData
    rfl rfl rfl rfl rfl

/-- Claim C7: when the itinerary-generation collaborator responds with a
non-success status carrying the detail message "rate limit exceeded", the UI
stores exactly that message as the error (so the error block with its manual
Try Again control is rendered) and no itinerary is stored (the Done display is
not reached); in general a failure detail is surfaced verbatim when present
and nonempty, else the generic message is used
(src/unnamed/part_002 lines 376-402 and 566-584). -/
theorem c7_collaborator_error (st : IGState) (c : Json)
    (hc : st.configuration = some c) :
    ((handleGenerateItineraryFinish (.fail (some "rate limit exceeded"))
        (handleGenerateItineraryStart st)).error = some "rate limit exceeded"
      ∧ reachedDone (handleGenerateItineraryFinish (.fail (some "rate limit exceeded"))
          (handleGenerateItineraryStart st)) = false
      ∧ retryControlShown (handleGenerateItineraryFinish (.fail (some "rate limit exceeded"))
          (handleGenerateItineraryStart st)) = true)
    ∧ (∀ d : String, d ≠ "" →
        (handleGenerateItineraryFinish (.fail (some d))
          (handleGenerateItineraryStart st)).error = some d)
    ∧ (handleGenerateItineraryFinish (.fail none)
        (handleGenerateItineraryStart st)).error
        = some "Failed to generate itinerary" := by
  unfold handleGenerateItineraryStart handleGenerateItineraryFinish jsOrElse
    reachedDone retryControlShown
  rw [hc]
  refine ⟨⟨?_, ?_, ?_⟩, ?_, ?_⟩
  · simp
  · simp
  · simp
  · intro d hd
    simp [hd]
  · simp

/-- Witness for C7 at a concrete state. -/
theorem c7_collaborator_error_witness :
    (handleGenerateItineraryFinish (.fail (some "rate limit exceeded"))
        (handleGenerateItineraryStart igLoaded)).error = some "rate limit exceeded"
    ∧ reachedDone (handleGenerateItineraryFinish (.fail (some "rate limit exceeded"))
        (handleGenerateItineraryStart igLoaded)) = false
    ∧ retryControlShown (handleGenerateItineraryFinish (.fail (some "rate limit exceeded"))
        (handleGenerateItineraryStart igLoaded)) = true := by
  exact (c7_collaborator_error igLoaded
    (Json.obj [("trip_summary",
      Json.obj [("source", Json.str "Mumbai"), ("destination", Json.str "Goa")])])
    rfl).1

/-- Claim C9: after every successful interest-suggestion response with a
non-empty list of interests, the selected-interest list is replaced by the
first `min 5 n` suggested interests in order, so the finalize button's
disabled condition becomes false without any manual interest click (given the
ambient conditions under which the suggest button is reachable: details
confirmed and no finalize call in flight)
(src/frontend/src/pages/TripConfiguration.jsx lines 82-86 and 546-550;
src/unnamed/part_005 lines 68-72). -/
theorem c9_auto_select (tc : TCState) (td : TripData) (interests : List String)
    (htd : tc.tripData = some td) (hne : interests ≠ [])
    (hconf : tc.detailsConfirmed = true) (hload : tc.loadingConfig = false) :
    (suggestSuccess interests (suggestStart tc)).selectedInterests
      = interests.take 5
    ∧ (suggestSuccess interests (suggestStart tc)).selectedInterests.length
      = min 5 interests.length
    ∧ finalizeDisabled (suggestSuccess interests (suggestStart tc)) = false := by
  have hlen : interests.length ≠ 0 := fun h => hne (List.length_eq_zero.mp h)
  unfold suggestStart suggestSuccess finalizeDisabled
  rw [htd]
  refine ⟨rfl, by simp, ?_⟩
  simp [hconf, hload]
  exact hne

/-- Witness for C9 at a concrete state and suggestion list. -/
theorem c9_auto_select_witness :
    (suggestSuccess ["Beaches", "Local food"] (suggestStart tcConfirmed)).selectedInterests
      = ["Beaches", "Local food"]
    ∧ finalizeDisabled (suggestSuccess ["Beaches", "Local food"] (suggestStart tcConfirmed))
      = false := by
  have h := c9_auto_select tcConfirmed sampleTripData ["Beaches", "Local food"]
    rfl (by decide) rfl rfl
  exact ⟨h.1, h.2.2⟩

/-- Counterexample to claim C4 as stated: at a concrete infeasible state, the
single click on the Use-minimum-days button sets the day count but dispatches
no validation request (the request log stays empty), leaves the old infeasible
result displayed, and starts no validation — it does not produce a fresh
validation result (src/frontend/src/pages/RouteValidation.jsx line 347 calls
only `setDays`). -/
theorem c4_counterexample :
    (useMinimumDaysClick rvInfeasible).days = 4
    ∧ (useMinimumDaysClick rvInfeasible).validateRequests = []
    ∧ (useMinimumDaysClick rvInfeasible).validationResult = some infeasibleResult
    ∧ (useMinimumDaysClick rvInfeasible).isValidating = false := by
  exact ⟨rfl, rfl, rfl, rfl⟩

/-- Claim C4 as amended: the Use-minimum-days click sets the day count to the
returned `minimum_days` and changes nothing else — in particular it does not
re-run the feasibility check; a fresh validation result requires the user to
invoke `handleValidate` separately, which then dispatches a request carrying
the updated day count (src/frontend/src/pages/RouteValidation.jsx lines
345-351 and 51-95). -/
theorem c4_amended (st : RVState) (r : FeasibilityResult)
    (hres : st.validationResult = some r) :
    useMinimumDaysClick st = { st with days := r.minimum_days }
    ∧ (∀ s d, st.source = some s → st.destination = some d → s.name ≠ d.name →
        handleValidate (useMinimumDaysClick st) =
          { st with days := r.minimum_days, isValidating := true, error := none,
                    validationResult := none,
                    validateRequests := st.validateRequests ++
                      [{ source_lat := s.lat, source_lon := s.lon,
                         dest_lat := d.lat, dest_lon := d.lon,
                         days := r.minimum_days }] }) := by
  have hclick : useMinimumDaysClick st = { st with days := r.minimum_days } := by
    unfold useMinimumDaysClick
    rw [hres]
  refine ⟨hclick, ?_⟩
  intro s d hs hd hne
  rw [hclick]
  unfold handleValidate
  simp [hs, hd, hne]

/-- Witness for C4's amended theorem at a concrete state. -/
theorem c4_amended_witness :
    useMinimumDaysClick rvInfeasible =
      { rvInfeasible with days := infeasibleResult.minimum_days }
    ∧ handleValidate (useMinimumDaysClick rvInfeasible) =
      { rvInfeasible with
        days := infeasibleResult.minimum_days,
        isValidating := true, error := none, validationResult := none,
        validateRequests := rvInfeasible.validateRequests ++
          [{ source_lat := mumbai.lat, source_lon := mumbai.lon,
             dest_lat := goa.lat, dest_lon := goa.lon,
             days := infeasibleResult.minimum_days }] } := by
  have h := c4_amended rvInfeasible infeasibleResult rfl
  exact ⟨h.1, h.2 mumbai goa rfl rfl (by decide)⟩

/-- Counterexample to claim C5 as stated: at a concrete state with a feasible
validation and loaded mode data but no preferred mode chosen, the Step 4
proceed-to-configuration section is rendered — the pipeline offers advancement
past the travel-mode stage without any preferred mode
(src/unnamed/part_006 line 586). -/
theorem c5_counterexample :
    step4Visible tpNoMode = true ∧ tpNoMode.preferredMode = none := by
  exact ⟨rfl, rfl⟩

/-- Claim C5 as amended: the proceed-to-configuration action is offered
whenever validation is feasible and mode data is loaded, independently of the
preferred-mode choice; the second half of the claim holds as stated: choosing
a mode that the collaborator marks invalid surfaces `preferred_mode_reason` as
a warning while the proceed section stays visible (non-blocking)
(src/unnamed/part_006 lines 567-571 and 586-603). -/
theorem c5_amended (st : TripPrepState) (m : ModeRecommendation)
    (r : FeasibilityResult)
    (hm : st.modeData = some m) (hv : m.preferred_mode_valid = false)
    (hp : st.preferredMode.isSome = true)
    (hr : st.validationResult = some r) (hf : r.feasible = true) :
    (∀ p, step4Visible { st with preferredMode := p } = step4Visible st)
    ∧ modeWarningShown st = true
    ∧ modeWarningText st = m.preferred_mode_reason
    ∧ step4Visible st = true := by
  refine ⟨fun p => rfl, ?_, ?_, ?_⟩
  · simp [modeWarningShown, hm, hp, hv]
  · simp [modeWarningText, modeWarningShown, hm, hp, hv]
  · simp [step4Visible, hr, hf, hm]

/-- Witness for C5's amended theorem at a concrete state. -/
theorem c5_amended_witness :
    modeWarningShown { tpAfterScenarioA with
        preferredMode := some "flight",
        modeData := some sampleModesInvalid } = true
    ∧ modeWarningText { tpAfterScenarioA with
        preferredMode := some "flight",
        modeData := some sampleModesInvalid }
      = some "Flight not recommended for this distance"
    ∧ step4Visible { tpAfterScenarioA with
        preferredMode := some "flight",
        modeData := some sampleModesInvalid } = true := by
  have h := c5_amended
    { tpAfterScenarioA with
      preferredMode := some "flight",
      modeData := some sampleModesInvalid }
    sampleModesInvalid feasibleResult rfl rfl rfl rfl rfl
  exact ⟨h.2.1, h.2.2.1, h.2.2.2⟩

/-- Counterexample to claim C2 as stated: at a concrete state after a
successful feasibility check at four days with train picked, changing the day
count back to three leaves the picked preferred mode in place and keeps the
old ModeRecommendation output — neither is invalidated by the day change
(src/unnamed/part_006 line 424 only sets `days`; the auto-refetch effect at
lines 250-254 re-fetches with the retained preferred mode). -/
theorem c2_counterexample :
    (dayChange 3 tpAfterScenarioA).preferredMode = some "train"
    ∧ (dayChange 3 tpAfterScenarioA).modeData = some sampleModes := by
  exact ⟨rfl, rfl⟩

/-- Claim C2 as amended: changing the day count feeding a successful
feasibility stage does not clear the preferred mode and does not synchronously
drop the ModeRecommendation output; instead the auto-refetch effect dispatches
a new travel-modes request carrying the new day count and the retained
preferred mode (the output is replaced only when that response arrives); the
preferred mode and mode output are cleared exactly when route validation is
re-dispatched by `handleValidateRoute`
(src/unnamed/part_006 lines 183-187, 250-254, 424). -/
theorem c2_amended (st : TripPrepState) (n : Nat) (r : FeasibilityResult)
    (hres : st.validationResult = some r) (hfeas : r.feasible = true) :
    (dayChange n st).preferredMode = st.preferredMode
    ∧ (dayChange n st).modeData = st.modeData
    ∧ (dayChange n st).modeRequests = st.modeRequests ++
        [{ distance_km := r.distance_km, days := n,
           preferred_mode := st.preferredMode }]
    ∧ (∀ s d, st.sourceCity = some s → st.destCity = some d → s.name ≠ d.name →
        (handleValidateRouteStart st).preferredMode = none
        ∧ (handleValidateRouteStart st).modeData = none) := by
  refine ⟨?_, ?_, ?_, ?_⟩
  · unfold dayChange modesEffect fetchTravelModesStart
    simp [hres, hfeas]
  · unfold dayChange modesEffect fetchTravelModesStart
    simp [hres, hfeas]
  · unfold dayChange modesEffect fetchTravelModesStart
    simp [hres, hfeas]
  · intro s d hs hd hne
    unfold handleValidateRouteStart
    rw [hs, hd]
    simp [hne]

/-- Witness for C2's amended theorem at a concrete state and day count. -/
theorem c2_amended_witness :
    (dayChange 3 tpAfterScenarioA).preferredMode = tpAfterScenarioA.preferredMode
    ∧ (dayChange 3 tpAfterScenarioA).modeData = tpAfterScenarioA.modeData
    ∧ (dayChange 3 tpAfterScenarioA).modeRequests =
        tpAfterScenarioA.modeRequests ++
          [{ distance_km := feasibleResult.distance_km, days := 3,
             preferred_mode := tpAfterScenarioA.preferredMode }]
    ∧ (handleValidateRouteStart tpAfterScenarioA).preferredMode = none
    ∧ (handleValidateRouteStart tpAfterScenarioA).modeData = none := by
  have h := c2_amended tpAfterScenarioA 3 feasibleResult rfl rfl
  have h4 := h.2.2.2 mumbai goa rfl rfl (by decide)
  exact ⟨h.1, h.2.1, h.2.2.1, h4.1, h4.2⟩

/-- Counterexample to claim C1 as stated: in the concrete event sequence
where the query "Mu" rests for the full quiet interval (its request is
dispatched), the user then types "Mum", and afterwards the "Mu" response
arrives, the response of the superseded query overwrites the candidate list:
the final state displays suggestions produced for "Mu" (dropdown open) while
the current query is "Mum".  Only the debounce timer is cancelled by a
keystroke; an in-flight response is applied with no currency check
(src/unnamed/part_006 lines 76-98). -/
theorem c1_counterexample :
    (runSearch [.edit "Mu", .timerFire, .edit "Mum",
        .respond "Mu" [mumbai]]).query = "Mum"
    ∧ (runSearch [.edit "Mu", .timerFire, .edit "Mum",
        .respond "Mu" [mumbai]]).suggestionsFor = some "Mu"
    ∧ (runSearch [.edit "Mu", .timerFire, .edit "Mum",
        .respond "Mu" [mumbai]]).showDropdown = true := by
  exact ⟨rfl, rfl, rfl⟩

theorem searchEffect_suggestionsFor (s : SearchState) :
    (searchEffect s).suggestionsFor = s.suggestionsFor
    ∨ (searchEffect s).suggestionsFor = none := by
  unfold searchEffect
  split
  · exact Or.inr rfl
  · split
    · split
      · exact Or.inl rfl
      · exact Or.inl rfl
    · exact Or.inl rfl

theorem searchEffect_timer (s : SearchState) :
    (searchEffect s).timer = s.timer ∨ (searchEffect s).timer = some s.query := by
  unfold searchEffect
  split
  · exact Or.inl rfl
  · split
    · split
      · exact Or.inl rfl
      · exact Or.inr rfl
    · exact Or.inr rfl

theorem foldl_edits_inv (evs : List SearchEvent) (s : SearchState)
    (hevs : ∀ e ∈ evs, isEditEvt e = true)
    (h1 : s.inflight = []) (h2 : s.suggestionsFor = none)
    (h3 : ∀ p, s.timer = some p → p = s.query) :
    (evs.foldl stepSearch s).inflight = []
    ∧ (evs.foldl stepSearch s).suggestionsFor = none
    ∧ (∀ p, (evs.foldl stepSearch s).timer = some p →
        p = (evs.foldl stepSearch s).query) := by
  induction evs generalizing s with
  | nil => exact ⟨h1, h2, h3⟩
  | cons e t ih =>
    rw [List.foldl_cons]
    cases e with
    | edit q =>
      apply ih
      · intro e' he'
        exact hevs e' (List.mem_cons_of_mem _ he')
      · rw [show (stepSearch s (.edit q)).inflight = s.inflight from
          searchEffect_inflight _]
        exact h1
      · rcases searchEffect_suggestionsFor
          { s with
            query := q
            selectedCity :=
              match s.selectedCity with
              | some c => if q ≠ c.name then none else some c
              | none => none
            timer := none } with h | h
        · exact h.trans h2
        · exact h
      · intro p hp
        rw [stepSearch_edit_query]
        rcases searchEffect_timer
          { s with
            query := q
            selectedCity :=
              match s.selectedCity with
              | some c => if q ≠ c.name then none else some c
              | none => none
            timer := none } with h | h
        · rw [show (stepSearch s (.edit q)).timer =
            (searchEffect
              { s with
                query := q
                selectedCity :=
                  match s.selectedCity with
                  | some c => if q ≠ c.name then none else some c
                  | none => none
                timer := none }).timer from rfl, h] at hp
          exact Option.noConfusion hp
        · rw [show (stepSearch s (.edit q)).timer =
            (searchEffect
              { s with
                query := q
                selectedCity :=
                  match s.selectedCity with
                  | some c => if q ≠ c.name then none else some c
                  | none => none
                timer := none }).timer from rfl, h] at hp
          exact (Option.some.injEq _ _ ▸ hp).symm
    | pick c =>
      exact absurd (hevs (.pick c) (List.mem_cons_self _ t)) (by simp [isEditEvt])
    | timerFire =>
      exact absurd (hevs .timerFire (List.mem_cons_self _ t)) (by simp [isEditEvt])
    | respond q data =>
      exact absurd (hevs (.respond q data) (List.mem_cons_self _ t))
        (by simp [isEditEvt])
    | respondFail q =>
      exact absurd (hevs (.respondFail q) (List.mem_cons_self _ t))
        (by simp [isEditEvt])

theorem stepSearch_quiet_inv (s : SearchState) (e : SearchEvent)
    (he : isQuietEvt e = true)
    (h1 : ∀ p ∈ s.inflight, p = s.query)
    (h2 : ∀ p, s.suggestionsFor = some p → p = s.query)
    (h3 : ∀ p, s.timer = some p → p = s.query) :
    (stepSearch s e).query = s.query
    ∧ (∀ p ∈ (stepSearch s e).inflight, p = s.query)
    ∧ (∀ p, (stepSearch s e).suggestionsFor = some p → p = s.query)
    ∧ (∀ p, (stepSearch s e).timer = some p → p = s.query) := by
  cases e with
  | edit q => simp [isQuietEvt] at he
  | pick c => simp [isQuietEvt] at he
  | timerFire =>
    simp only [stepSearch]
    cases ht : s.timer with
    | none => exact ⟨rfl, h1, h2, h3⟩
    | some p0 =>
      refine ⟨rfl, ?_, h2, ?_⟩
      · intro p hp
        rcases List.mem_append.mp hp with hmem | hmem
        · exact h1 p hmem
        · rw [List.mem_singleton.mp hmem]
          exact h3 p0 ht
      · intro p hp
        exact Option.noConfusion hp
  | respond q data =>
    simp only [stepSearch]
    by_cases hq : q ∈ s.inflight
    · rw [if_pos hq]
      refine ⟨rfl, ?_, ?_, h3⟩
      · intro p hp
        exact h1 p (List.erase_subset q s.inflight hp)
      · intro p hp
        rw [← Option.some.injEq q p |>.mp hp]
        exact h1 q hq
    · rw [if_neg hq]
      exact ⟨rfl, h1, h2, h3⟩
  | respondFail q =>
    simp only [stepSearch]
    by_cases hq : q ∈ s.inflight
    · rw [if_pos hq]
      refine ⟨rfl, ?_, ?_, h3⟩
      · intro p hp
        exact h1 p (List.erase_subset q s.inflight hp)
      · intro p hp
        rw [← Option.some.injEq q p |>.mp hp]
        exact h1 q hq
    · rw [if_neg hq]
      exact ⟨rfl, h1, h2, h3⟩

theorem foldl_quiet_inv (evs : List SearchEvent) (s : SearchState)
    (hevs : ∀ e ∈ evs, isQuietEvt e = true)
    (h1 : ∀ p ∈ s.inflight, p = s.query)
    (h2 : ∀ p, s.suggestionsFor = some p → p = s.query)
    (h3 : ∀ p, s.timer = some p → p = s.query) :
    (evs.foldl stepSearch s).query = s.query
    ∧ (∀ p, (evs.foldl stepSearch s).suggestionsFor = some p → p = s.query) := by
  induction evs generalizing s with
  | nil => exact ⟨rfl, h2⟩
  | cons e t ih =>
    rw [List.foldl_cons]
    have hstep := stepSearch_quiet_inv s e (hevs e (List.mem_cons_self e t)) h1 h2 h3
    have hrec := ih (stepSearch s e)
      (fun e' he' => hevs e' (List.mem_cons_of_mem _ he'))
      (fun p hp => (hstep.2.1 p hp).trans hstep.1.symm)
      (fun p hp => (hstep.2.2.1 p hp).trans hstep.1.symm)
      (fun p hp => (hstep.2.2.2 p hp).trans hstep.1.symm)
    exact ⟨hrec.1.trans hstep.1,
      fun p hp => (hrec.2 p hp).trans hstep.1⟩

/-- Claim C1 as amended: a keystroke cancels only the pending debounce timer,
so for every sequence of rapid query edits — edits each arriving before the
previous quiet interval elapses, i.e. no timer firing interleaved between
edits — no request for a superseded query is ever dispatched, and any
suggestions subsequently displayed belong to the final query.  The claim as
stated fails (see the counterexample): once a quiet interval has elapsed and
the request is dispatched, its response is applied without any currency check
and can overwrite the candidate list shown for a newer query
(src/unnamed/part_006 lines 63-99; src/unnamed/part_004 lines 55-98). -/
theorem c1_amended (pre post : List SearchEvent)
    (hpre : ∀ e ∈ pre, isEditEvt e = true)
    (hpost : ∀ e ∈ post, isQuietEvt e = true) :
    ∀ p, (runSearch (pre ++ post)).suggestionsFor = some p →
      p = (runSearch (pre ++ post)).query := by
  unfold runSearch
  rw [List.foldl_append]
  have hmid := foldl_edits_inv pre initSearch hpre rfl rfl
    (fun p h => Option.noConfusion h)
  obtain ⟨hi, hsf, ht⟩ := hmid
  have hq := foldl_quiet_inv post (pre.foldl stepSearch initSearch) hpost
    (fun p hp => absurd (hi ▸ hp) (List.not_mem_nil p))
    (fun p hp => Option.noConfusion (hsf ▸ hp))
    ht
  intro p hp
  exact (hq.2 p hp).trans hq.1.symm

/-- Witness for C1's amended theorem on a concrete rapid-edit trace: both
edits arrive before any timer fires, so the displayed suggestions are the
final query's. -/
theorem c1_amended_witness :
    (runSearch ([.edit "Mu", .edit "Mum"] ++
      [.timerFire, .respond "Mum" [mumbai]])).suggestionsFor = some "Mum"
    ∧ "Mum" = (runSearch ([.edit "Mu", .edit "Mum"] ++
      [.timerFire, .respond "Mum" [mumbai]])).query := by
  have h := c1_amended [.edit "Mu", .edit "Mum"]
    [.timerFire, .respond "Mum" [mumbai]]
    (by decide) (by decide)
  exact ⟨rfl, h "Mum" rfl⟩

theorem digVal_digChar (d : Nat) (hd : d < 10) : digVal (digChar d) = d := by
  interval_cases d <;> rfl

theorem isDigit_digChar (d : Nat) (hd : d < 10) : (digChar d).isDigit = true := by
  interval_cases d <;> decide

theorem natChars_all_digits (n : Nat) :
    ∀ c ∈ natChars n, c.isDigit = true := by
  intro c hc
  unfold natChars at hc
  split at hc
  · rw [List.mem_singleton.mp hc]
    decide
  · rw [List.mem_reverse] at hc
    obtain ⟨d, hd, rfl⟩ := List.mem_map.mp hc
    exact isDigit_digChar d (Nat.digits_lt_base (by norm_num) hd)

theorem natChars_ne_nil (n : Nat) : natChars n ≠ [] := by
  unfold natChars
  split
  · simp
  · simp only [ne_eq, List.reverse_eq_nil_iff, List.map_eq_nil_iff]
    intro hnil
    exact absurd (Nat.digits_eq_nil_iff_eq_zero.mp hnil) (by assumption)

theorem charsToNat_append_single (xs : List Char) (x : Char) :
    charsToNat (xs ++ [x]) = 10 * charsToNat xs + digVal x := by
  unfold charsToNat
  rw [List.foldl_append]
  rfl

theorem charsToNat_reverse_map (l : List Nat) (hl : ∀ d ∈ l, d < 10) :
    charsToNat ((l.map digChar).reverse) = Nat.ofDigits 10 l := by
  induction l with
  | nil => rfl
  | cons d t ih =>
    rw [List.map_cons, List.reverse_cons, charsToNat_append_single,
      digVal_digChar d (hl d (List.mem_cons_self d t)),
      ih (fun x hx => hl x (List.mem_cons_of_mem _ hx)), Nat.ofDigits_cons]
    ring

theorem charsToNat_natChars (n : Nat) : charsToNat (natChars n) = n := by
  unfold natChars
  split
  · subst n
    rfl
  · rw [charsToNat_reverse_map _
      (fun d hd => Nat.digits_lt_base (by norm_num) hd),
      Nat.ofDigits_digits]

theorem takeDigits_append (ds rest : List Char)
    (hds : ∀ c ∈ ds, c.isDigit = true) (hrest : noDigitHead rest) :
    takeDigits (ds ++ rest) = (ds, rest) := by
  induction ds with
  | nil =>
    rw [List.nil_append]
    cases rest with
    | nil => rfl
    | cons c t =>
      unfold takeDigits
      rw [if_neg]
      simp only [noDigitHead] at hrest
      simp [hrest]
  | cons c t ih =>
    rw [List.cons_append]
    unfold takeDigits
    rw [if_pos (hds c (List.mem_cons_self c t))]
    rw [ih (fun x hx => hds x (List.mem_cons_of_mem _ hx))]

theorem dropExpect_append (pat cs : List Char) :
    dropExpect pat (pat ++ cs) = some cs := by
  induction pat with
  | nil => rfl
  | cons p ps ih =>
    rw [List.cons_append]
    unfold dropExpect
    rw [if_pos rfl]
    exact ih

theorem parseStrBody_quote (cs : List Char) :
    parseStrBody ('"' :: cs) = some ([], cs) := by
  rw [parseStrBody.eq_def]
  simp

theorem parseStrBody_cons_escape (e : Char) (cs : List Char) :
    parseStrBody ('\\' :: e :: cs) =
      match unescapeChar e, parseStrBody cs with
      | some u, some (s, r) => some (u :: s, r)
      | _, _ => none := by
  rw [parseStrBody.eq_def]
  simp

theorem parseStrBody_cons_plain (c : Char) (cs : List Char)
    (h1 : ¬ c = '"') (h2 : ¬ c = '\\') :
    parseStrBody (c :: cs) =
      match parseStrBody cs with
      | some (s, r) => some (c :: s, r)
      | none => none := by
  rw [parseStrBody.eq_def]
  simp [h1, h2]

theorem parseStrBody_escape (s rest : List Char) :
    parseStrBody (escapeString s ++ ('"' :: rest)) = some (s, rest) := by
  induction s with
  | nil =>
    show parseStrBody ('"' :: rest) = some ([], rest)
    exact parseStrBody_quote rest
  | cons c t ih =>
    show parseStrBody ((escapeChar c ++ escapeString t) ++ ('"' :: rest)) = _
    rw [List.append_assoc]
    unfold escapeChar
    by_cases h1 : c = '"'
    · subst h1
      rw [if_pos rfl]
      show parseStrBody ('\\' :: '"' :: (escapeString t ++ ('"' :: rest))) = _
      rw [parseStrBody_cons_escape, ih]
      rfl
    · rw [if_neg h1]
      by_cases h2 : c = '\\'
      · subst h2
        rw [if_pos rfl]
        show parseStrBody ('\\' :: '\\' :: (escapeString t ++ ('"' :: rest))) = _
        rw [parseStrBody_cons_escape, ih]
        rfl
      · rw [if_neg h2]
        by_cases h3 : c = '\n'
        · subst h3
          rw [if_pos rfl]
          show parseStrBody ('\\' :: 'n' :: (escapeString t ++ ('"' :: rest))) = _
          rw [parseStrBody_cons_escape, ih]
          rfl
        · rw [if_neg h3]
          by_cases h4 : c = '\t'
          · subst h4
            rw [if_pos rfl]
            show parseStrBody ('\\' :: 't' :: (escapeString t ++ ('"' :: rest))) = _
            rw [parseStrBody_cons_escape, ih]
            rfl
          · rw [if_neg h4]
            by_cases h5 : c = '\r'
            · subst h5
              rw [if_pos rfl]
              show parseStrBody ('\\' :: 'r' :: (escapeString t ++ ('"' :: rest))) = _
              rw [parseStrBody_cons_escape, ih]
              rfl
            · rw [if_neg h5]
              show parseStrBody (c :: (escapeString t ++ ('"' :: rest))) = _
              rw [parseStrBody_cons_plain c _ h1 h2, ih]

theorem isDigit_ne_special (c : Char) (h : c.isDigit = true) :
    ¬ c = 'n' ∧ ¬ c = 't' ∧ ¬ c = 'f' ∧ ¬ c = '"' ∧ ¬ c = '['
    ∧ ¬ c = lbrace ∧ ¬ c = ']' := by
  refine ⟨?_, ?_, ?_, ?_, ?_, ?_, ?_⟩ <;>
    (intro he; rw [he] at h; revert h; decide)

theorem one_le_sizeVal (j : Json) : 1 ≤ sizeVal j := by
  cases j with
  | null => simp [sizeVal]
  | bool b => simp [sizeVal]
  | num n => simp [sizeVal]
  | str s => simp [sizeVal]
  | arr xs => cases xs <;> simp [sizeVal]
  | obj fs => cases fs <;> simp [sizeVal]

theorem one_le_sizeArrTail (xs : List Json) : 1 ≤ sizeArrTail xs := by
  cases xs <;> simp [sizeArrTail]

theorem one_le_sizeObjTail (fs : List (String × Json)) : 1 ≤ sizeObjTail fs := by
  cases fs <;> simp [sizeObjTail]

theorem one_le_sizeField (kv : String × Json) : 1 ≤ sizeField kv := by
  obtain ⟨k, v⟩ := kv
  simp [sizeField]

theorem strVal_head_ne (j : Json) :
    ∃ c cs, strVal j = c :: cs ∧ ¬ c = ']' := by
  cases j with
  | null => exact ⟨'n', _, rfl, by decide⟩
  | bool b =>
    cases b
    · exact ⟨'f', _, rfl, by decide⟩
    · exact ⟨'t', _, rfl, by decide⟩
  | num n =>
    obtain ⟨c, ds, hcds⟩ := List.exists_cons_of_ne_nil (natChars_ne_nil n)
    refine ⟨c, ds, ?_, ?_⟩
    · show natChars n = c :: ds
      exact hcds
    · have hd : c.isDigit = true :=
        natChars_all_digits n c (by rw [hcds]; exact List.mem_cons_self c ds)
      exact (isDigit_ne_special c hd).2.2.2.2.2.2
  | str s => exact ⟨'"', _, rfl, by decide⟩
  | arr xs =>
    cases xs with
    | nil => exact ⟨'[', _, rfl, by decide⟩
    | cons x t => exact ⟨'[', _, rfl, by decide⟩
  | obj fs =>
    cases fs with
    | nil => exact ⟨lbrace, _, rfl, by decide⟩
    | cons kv t => exact ⟨lbrace, _, rfl, by decide⟩

theorem noDigitHead_strArrTail (t : List Json) (rest : List Char) :
    noDigitHead (strArrTail t ++ rest) := by
  cases t with
  | nil =>
    show (']' : Char).isDigit = false
    decide
  | cons y t2 =>
    show (',' : Char).isDigit = false
    decide

theorem noDigitHead_strObjTail (t : List (String × Json)) (rest : List Char) :
    noDigitHead (strObjTail t ++ rest) := by
  cases t with
  | nil =>
    show rbrace.isDigit = false
    decide
  | cons kv t2 =>
    show (',' : Char).isDigit = false
    decide

theorem parseVal_quote (f : Nat) (x : List Char) :
    parseVal (f + 1) ('"' :: x) =
      match parseStrBody x with
      | some (s, r) => some (.str (String.mk s), r)
      | none => none := rfl

theorem parseVal_digit (f : Nat) (c : Char) (x : List Char)
    (hc : c.isDigit = true) :
    parseVal (f + 1) (c :: x) =
      some (.num (charsToNat (c :: (takeDigits x).1)), (takeDigits x).2) := by
  obtain ⟨hn, ht, hf, hq, hb, hbr, _⟩ := isDigit_ne_special c hc
  simp [parseVal, hn, ht, hf, hq, hb, hbr, hc]

theorem parseVal_bracket_cons (f : Nat) (c : Char) (y : List Char)
    (hc : ¬ c = ']') :
    parseVal (f + 1) ('[' :: c :: y) =
      match parseVal f (c :: y) with
      | some (v, r2) =>
        match parseArrTail f r2 with
        | some (vs, r3) => some (Json.arr (v :: vs), r3)
        | none => none
      | none => none := by
  simp [parseVal, hc]

theorem parseVal_brace_cons (f : Nat) (c : Char) (y : List Char)
    (hc : ¬ c = rbrace) :
    parseVal (f + 1) (lbrace :: c :: y) =
      match parseField f (c :: y) with
      | some (kv, r2) =>
        match parseObjTail f r2 with
        | some (kvs, r3) => some (Json.obj (kv :: kvs), r3)
        | none => none
      | none => none := by
  simp only [parseVal]
  simp [lbrace, rbrace] at hc ⊢
  simp [hc]

theorem parseArrTail_comma (f : Nat) (x : List Char) :
    parseArrTail (f + 1) (',' :: x) =
      match parseVal f x with
      | some (v, r1) =>
        match parseArrTail f r1 with
        | some (vs, r2) => some (v :: vs, r2)
        | none => none
      | none => none := rfl

theorem parseObjTail_comma (f : Nat) (x : List Char) :
    parseObjTail (f + 1) (',' :: x) =
      match parseField f x with
      | some (kv, r1) =>
        match parseObjTail f r1 with
        | some (kvs, r2) => some (kv :: kvs, r2)
        | none => none
      | none => none := rfl

theorem parseField_quote (f : Nat) (x : List Char) :
    parseField (f + 1) ('"' :: x) =
      match parseStrBody x with
      | some (k, r1) =>
        match r1 with
        | [] => none
        | c2 :: r2 =>
          if c2 = ':' then
            match parseVal f r2 with
            | some (v, r3) => some ((String.mk k, v), r3)
            | none => none
          else none
      | none => none := rfl

theorem strField_head (kv : String × Json) :
    ∃ y, strField kv = '"' :: y := by
  obtain ⟨k, v⟩ := kv
  exact ⟨_, rfl⟩

theorem sizeField_eq (kv : String × Json) :
    sizeField kv = 1 + sizeVal kv.2 := by
  obtain ⟨k, v⟩ := kv
  rfl

theorem strField_eq (kv : String × Json) :
    strField kv = '"' :: (escapeString kv.1.data ++ ('"' :: ':' :: strVal kv.2)) := by
  obtain ⟨k, v⟩ := kv
  rfl

mutual

theorem parseVal_strVal (j : Json) (fuel : Nat) (rest : List Char)
    (hfuel : sizeVal j ≤ fuel) (hrest : noDigitHead rest) :
    parseVal fuel (strVal j ++ rest) = some (j, rest) := by
  obtain ⟨f, rfl⟩ : ∃ f, fuel = f + 1 :=
    ⟨fuel - 1, by have := one_le_sizeVal j; omega⟩
  cases j with
  | null => rfl
  | bool b => cases b <;> rfl
  | num n =>
    obtain ⟨c, ds, hcds⟩ := List.exists_cons_of_ne_nil (natChars_ne_nil n)
    have hdigits : ∀ x ∈ c :: ds, x.isDigit = true := by
      rw [← hcds]
      exact natChars_all_digits n
    have heq : strVal (.num n) ++ rest = c :: (ds ++ rest) := by
      show natChars n ++ rest = _
      rw [hcds]
      rfl
    rw [heq, parseVal_digit f c _ (hdigits c (List.mem_cons_self c ds))]
    rw [takeDigits_append ds rest
      (fun x hx => hdigits x (List.mem_cons_of_mem _ hx)) hrest]
    have hn : charsToNat (c :: ds) = n := by
      rw [← hcds]
      exact charsToNat_natChars n
    simp [hn]
  | str s =>
    have heq : strVal (.str s) ++ rest =
        '"' :: (escapeString s.data ++ ('"' :: rest)) := by
      show ('"' :: (escapeString s.data ++ ['"'])) ++ rest = _
      simp
    rw [heq, parseVal_quote, parseStrBody_escape]
  | arr xs =>
    cases xs with
    | nil => rfl
    | cons x t =>
      simp only [sizeVal] at hfuel
      have hx : sizeVal x ≤ f := by
        have := le_max_left (sizeVal x) (sizeArrTail t)
        omega
      have ht : sizeArrTail t ≤ f := by
        have := le_max_right (sizeVal x) (sizeArrTail t)
        omega
      obtain ⟨c, cs, hxc, hcne⟩ := strVal_head_ne x
      have heq : strVal (.arr (x :: t)) ++ rest =
          '[' :: (c :: (cs ++ (strArrTail t ++ rest))) := by
        show ('[' :: (strVal x ++ strArrTail t)) ++ rest = _
        rw [hxc]
        simp
      rw [heq, parseVal_bracket_cons f c _ hcne]
      have h1 : parseVal f (c :: (cs ++ (strArrTail t ++ rest)))
          = some (x, strArrTail t ++ rest) := by
        have harg : c :: (cs ++ (strArrTail t ++ rest))
            = strVal x ++ (strArrTail t ++ rest) := by
          rw [hxc]
          simp
        rw [harg]
        exact parseVal_strVal x f _ hx (noDigitHead_strArrTail t rest)
      rw [h1]
      simp [parseArrTail_strArrTail t f rest ht hrest]
  | obj fs =>
    cases fs with
    | nil => rfl
    | cons kv t =>
      simp only [sizeVal] at hfuel
      have hkv : sizeField kv ≤ f := by
        have := le_max_left (sizeField kv) (sizeObjTail t)
        omega
      have ht : sizeObjTail t ≤ f := by
        have := le_max_right (sizeField kv) (sizeObjTail t)
        omega
      obtain ⟨y, hy⟩ := strField_head kv
      have heq : strVal (.obj (kv :: t)) ++ rest =
          lbrace :: ('"' :: (y ++ (strObjTail t ++ rest))) := by
        show (lbrace :: (strField kv ++ strObjTail t)) ++ rest = _
        rw [hy]
        simp
      rw [heq, parseVal_brace_cons f '"' _ (by decide)]
      have h1 : parseField f ('"' :: (y ++ (strObjTail t ++ rest)))
          = some (kv, strObjTail t ++ rest) := by
        have harg : '"' :: (y ++ (strObjTail t ++ rest))
            = strField kv ++ (strObjTail t ++ rest) := by
          rw [hy]
          simp
        rw [harg]
        exact parseField_strField kv f _ hkv (noDigitHead_strObjTail t rest)
      rw [h1]
      simp [parseObjTail_strObjTail t f rest ht hrest]
termination_by sizeOf j

theorem parseField_strField (kv : String × Json) (fuel : Nat) (rest : List Char)
    (hfuel : sizeField kv ≤ fuel) (hrest : noDigitHead rest) :
    parseField fuel (strField kv ++ rest) = some (kv, rest) := by
  obtain ⟨f, rfl⟩ : ∃ f, fuel = f + 1 :=
    ⟨fuel - 1, by have := one_le_sizeField kv; omega⟩
  have hv : sizeVal kv.2 ≤ f := by
    rw [sizeField_eq] at hfuel
    omega
  have heq : strField kv ++ rest =
      '"' :: (escapeString kv.1.data ++ ('"' :: (':' :: (strVal kv.2 ++ rest)))) := by
    rw [strField_eq]
    simp
  rw [heq, parseField_quote, parseStrBody_escape]
  simp [parseVal_strVal kv.2 f rest hv hrest]
termination_by sizeOf kv
decreasing_by
  obtain ⟨k, v⟩ := kv
  simp

theorem parseArrTail_strArrTail (xs : List Json) (fuel : Nat) (rest : List Char)
    (hfuel : sizeArrTail xs ≤ fuel) (hrest : noDigitHead rest) :
    parseArrTail fuel (strArrTail xs ++ rest) = some (xs, rest) := by
  obtain ⟨f, rfl⟩ : ∃ f, fuel = f + 1 :=
    ⟨fuel - 1, by have := one_le_sizeArrTail xs; omega⟩
  cases xs with
  | nil => rfl
  | cons y t =>
    simp only [sizeArrTail] at hfuel
    have hy : sizeVal y ≤ f := by
      have := le_max_left (sizeVal y) (sizeArrTail t)
      omega
    have ht : sizeArrTail t ≤ f := by
      have := le_max_right (sizeVal y) (sizeArrTail t)
      omega
    have heq : strArrTail (y :: t) ++ rest
        = ',' :: (strVal y ++ (strArrTail t ++ rest)) := by
      show (',' :: (strVal y ++ strArrTail t)) ++ rest = _
      simp
    rw [heq, parseArrTail_comma]
    simp [parseVal_strVal y f (strArrTail t ++ rest) hy
        (noDigitHead_strArrTail t rest),
      parseArrTail_strArrTail t f rest ht hrest]
termination_by sizeOf xs

theorem parseObjTail_strObjTail (fs : List (String × Json)) (fuel : Nat)
    (rest : List Char)
    (hfuel : sizeObjTail fs ≤ fuel) (hrest : noDigitHead rest) :
    parseObjTail fuel (strObjTail fs ++ rest) = some (fs, rest) := by
  obtain ⟨f, rfl⟩ : ∃ f, fuel = f + 1 :=
    ⟨fuel - 1, by have := one_le_sizeObjTail fs; omega⟩
  cases fs with
  | nil => rfl
  | cons kv t =>
    simp only [sizeObjTail] at hfuel
    have hkv : sizeField kv ≤ f := by
      have := le_max_left (sizeField kv) (sizeObjTail t)
      omega
    have ht : sizeObjTail t ≤ f := by
      have := le_max_right (sizeField kv) (sizeObjTail t)
      omega
    have heq : strObjTail (kv :: t) ++ rest
        = ',' :: (strField kv ++ (strObjTail t ++ rest)) := by
      show (',' :: (strField kv ++ strObjTail t)) ++ rest = _
      simp
    rw [heq, parseObjTail_comma]
    simp [parseField_strField kv f (strObjTail t ++ rest) hkv
        (noDigitHead_strObjTail t rest),
      parseObjTail_strObjTail t f rest ht hrest]
termination_by sizeOf fs

end

mutual

theorem sizeVal_le (j : Json) : sizeVal j ≤ (strVal j).length := by
  cases j with
  | null => simp [sizeVal, strVal, jsNullChars]
  | bool b => cases b <;> simp [sizeVal, strVal, jsTrueChars, jsFalseChars]
  | num n =>
    have := List.length_pos.mpr (natChars_ne_nil n)
    simp only [sizeVal, strVal]
    omega
  | str s =>
    simp [sizeVal, strVal]
  | arr xs =>
    cases xs with
    | nil => simp [sizeVal, strVal]
    | cons x t =>
      have h1 := sizeVal_le x
      have h2 := sizeArrTail_le t
      simp only [sizeVal, strVal, List.length_cons, List.length_append]
      omega
  | obj fs =>
    cases fs with
    | nil => simp [sizeVal, strVal]
    | cons kv t =>
      have h1 := sizeField_le kv
      have h2 := sizeObjTail_le t
      simp only [sizeVal, strVal, List.length_cons, List.length_append]
      omega
termination_by sizeOf j

theorem sizeField_le (kv : String × Json) :
    sizeField kv ≤ (strField kv).length := by
  rw [strField_eq, sizeField_eq]
  have := sizeVal_le kv.2
  simp only [List.length_cons, List.length_append]
  omega
termination_by sizeOf kv
decreasing_by
  obtain ⟨k, v⟩ := kv
  simp

theorem sizeArrTail_le (xs : List Json) :
    sizeArrTail xs ≤ (strArrTail xs).length := by
  cases xs with
  | nil => simp [sizeArrTail, strArrTail]
  | cons y t =>
    have h1 := sizeVal_le y
    have h2 := sizeArrTail_le t
    simp only [sizeArrTail, strArrTail, List.length_cons, List.length_append]
    omega
termination_by sizeOf xs

theorem sizeObjTail_le (fs : List (String × Json)) :
    sizeObjTail fs ≤ (strObjTail fs).length := by
  cases fs with
  | nil => simp [sizeObjTail, strObjTail]
  | cons kv t =>
    have h1 := sizeField_le kv
    have h2 := sizeObjTail_le t
    simp only [sizeObjTail, strObjTail, List.length_cons, List.length_append]
    omega
termination_by sizeOf fs

end

theorem jsonParse_stringify (j : Json) : jsonParse (jsonStringify j) = some j := by
  unfold jsonParse jsonStringify
  have hparse : parseVal ((strVal j).length + 1) (strVal j ++ []) = some (j, []) :=
    parseVal_strVal j _ [] (by have := sizeVal_le j; omega) trivial
  rw [List.append_nil] at hparse
  show (match parseVal ((strVal j).length + 1) (strVal j) with
    | some (v, []) => some v
    | _ => none) = some j
  rw [hparse]

/-- Claim C8: for every Configuration payload returned by the finalize call,
persisting it to session storage under the fixed key via `JSON.stringify`
(the Generate Itinerary onClick), reloading it via `JSON.parse` after
navigation (the configuration-loading useEffect), and serializing it as the
itinerary-generation request body yields a payload byte-identical to the
payload obtained by serializing the in-memory Configuration directly
(src/frontend/src/pages/TripConfiguration.jsx lines 648-658;
src/unnamed/part_002 lines 358-371 and 384-388). -/
theorem c8_configuration_roundtrip (store : String → Option String)
    (result : Json) :
    loadConfiguration (persistConfiguration store result) = some result
    ∧ (loadConfiguration (persistConfiguration store result)).map
        itineraryRequestBody
      = some (itineraryRequestBody result) := by
  have h : loadConfiguration (persistConfiguration store result) = some result := by
    unfold loadConfiguration persistConfiguration sessionSet
    rw [if_pos rfl]
    exact jsonParse_stringify result
  refine ⟨h, ?_⟩
  rw [h]
  rfl
